import Mathlib

/-!
Verification of the VoiceCraft front end (job submission, status polling and
job-list rendering). The definitions below are a shallow embedding of the
JavaScript in src/js/scripts.js and src/js/error.js (jobs-page revision):
pure data is modelled directly, browser side effects (console, DOM, network)
are recorded in an explicit effect list, and sessionStorage is an explicit
record threaded through the functions.
-/

namespace VoiceCraft

/-- Metadata snapshot persisted as currentJobMeta after a successful upload
(scripts.js, handleVideoFormSubmit: JSON.stringify of voice/category/audio). -/
structure JobMeta where
  voice    : String
  category : String
  audio    : String
  deriving DecidableEq, Repr

/-- Job record as parsed from a GET /jobs/jobId response body (error.js).
The status field is the raw server string (PENDING, PROCESSING, COMPLETE,
FAILED); outputKey and errorMessage may be absent; createdAt is modelled as
the numeric timestamp the code obtains via new Date(createdAt || 0). -/
structure Job where
  status       : String
  outputKey    : Option String := none
  errorMessage : Option String := none
  createdAt    : Option Nat    := none
  deriving DecidableEq, Repr

/-- Tab-scoped sessionStorage keys the polling and submission code touches.
A value of none models an absent key (getItem returning null). -/
structure SessionStore where
  currentJobId   : Option String
  currentJobMeta : Option JobMeta
  userId         : Option String
  deriving DecidableEq, Repr

/-- Poller-visible page state: the session store, whether the
current-job-section element is visible, and whether the poll interval timer
is live (pollTimer not yet cleared). -/
structure PState where
  store          : SessionStore
  sectionVisible : Bool
  timerActive    : Bool
  deriving DecidableEq, Repr

/-- Observable side effects of the scripts: console output, network requests
and DOM/storage mutations, recorded in program order. -/
inductive Effect where
  | consoleLog      (msg : String)
  | consoleError    (msg : String)
  | fetchJob        (jobId : String)
  | jobListRefresh  (userId : String)
  | downloadRequest (key : String)
  | clearSession
  | hideSection
  | uiComplete
  | uiFailed        (msg : String)
  | credRequest
  | s3Put           (key : String)
  | setFieldError   (field : String) (msg : String)
  | showFormError   (msg : String)
  | setButtonLoading
  | resetSubmitButton
  | redirect        (page : String)
  | displayFileName (txt : String)
  | clearFileInput
  deriving DecidableEq, Repr

/-- Outcome of one fetch of GET /jobs/jobId as seen by pollOnce: either the
fetch promise rejected (network failure), or an HTTP response arrived with a
status code and a body that either parses to a Job or is malformed (none). -/
inductive FetchOutcome where
  | networkError
  | response (status : Nat) (body : Option Job)
  deriving DecidableEq, Repr

/-- Truthiness of response.ok: status in the 2xx range. -/
def httpOk (status : Nat) : Bool := 200 ≤ status && status < 300

/-- Polling interval constant POLL_INTERVAL_MS (error.js). -/
def POLL_INTERVAL_MS : Nat := 4000

/-- Delay before timer tick n. setInterval is called with the constant
POLL_INTERVAL_MS, so the delay is the same for every tick: there is no
backoff and no dependence on how many polls have failed. -/
def pollDelay (_tick : Nat) : Nat := POLL_INTERVAL_MS

/-- Default message shown when job.errorMessage is falsy (updateCurrentJobUI). -/
def defaultFailMsg : String := "Processing failed. Please try again."

/-- Effects of updateCurrentJobUI (error.js, jobs-page revision): on COMPLETE
the complete badge is shown and, when job.outputKey is truthy, one download
URL is requested for exactly that key; on FAILED the failed badge and the
error text are rendered; any other status leaves the animated bar as-is. -/
def updateCurrentJobUI (job : Job) : List Effect :=
  if job.status = "COMPLETE" then
    Effect.uiComplete ::
      (match job.outputKey with
       | some k => if k = "" then [] else [Effect.downloadRequest k]
       | none => [])
  else if job.status = "FAILED" then
    [Effect.uiFailed
      (match job.errorMessage with
       | some m => if m = "" then defaultFailMsg else m
       | none => defaultFailMsg)]
  else []

/-- Result of one poll cycle: the new page state, the effects emitted during
the cycle, and the boolean pollOnce returns (true stops the timer). -/
structure PollStep where
  state    : PState
  effects  : List Effect
  finished : Bool
  deriving DecidableEq, Repr

/-- One poll cycle, translated from pollOnce (error.js, jobs-page revision).
A 404 clears currentJobId and currentJobMeta, hides the current-job section
and returns true. Any other non-ok status, a rejected fetch, or a body that
fails to parse is caught, logged and returns false with no state change. An
ok response updates the UI and, when status is COMPLETE or FAILED, triggers
a job-list refresh (if a truthy userId is stored) and returns true. -/
def pollOnce (jobId : String) (r : FetchOutcome) (s : PState) : PollStep :=
  match r with
  | .networkError =>
      ⟨s, [Effect.fetchJob jobId, Effect.consoleError "Poll error"], false⟩
  | .response status body =>
      if status = 404 then
        ⟨{ s with
            store := { s.store with currentJobId := none, currentJobMeta := none },
            sectionVisible := false },
          [Effect.fetchJob jobId,
           Effect.consoleLog "Current job not found in DB - clearing",
           Effect.clearSession, Effect.hideSection],
          true⟩
      else if httpOk status then
        match body with
        | none =>
            ⟨s, [Effect.fetchJob jobId, Effect.consoleError "Poll error"], false⟩
        | some job =>
            if job.status = "COMPLETE" ∨ job.status = "FAILED" then
              ⟨s,
                Effect.fetchJob jobId :: updateCurrentJobUI job ++
                  (match s.store.userId with
                   | some u => if u = "" then [] else [Effect.jobListRefresh u]
                   | none => []),
                true⟩
            else
              ⟨s, Effect.fetchJob jobId :: updateCurrentJobUI job, false⟩
      else
        ⟨s, [Effect.fetchJob jobId, Effect.consoleError "Poll error"], false⟩

/-- The polling loop of startPolling: the first element of the outcome list
is the immediate check-now call, the rest are interval ticks. When pollOnce
returns true the interval is cleared in the same synchronous continuation
(run-to-completion), so once timerActive is false no later outcome is ever
processed and no further effects occur. -/
def runPolls (jobId : String) : List FetchOutcome → PState → PState × List Effect
  | [], s => (s, [])
  | r :: rs, s =>
      if s.timerActive then
        let step := pollOnce jobId r s
        let s' := if step.finished then { step.state with timerActive := false } else step.state
        let rest := runPolls jobId rs s'
        (rest.1, step.effects ++ rest.2)
      else (s, [])

/-- Classifier for poll failures handled by the catch block of pollOnce: a
rejected fetch, a non-2xx non-404 status, or an ok response whose body does
not parse. -/
def isPollFailure : FetchOutcome → Bool
  | .networkError => true
  | .response status body =>
      if status = 404 then false
      else if httpOk status then body.isNone
      else true

/-- Number of job-list refreshes in an effect trace. -/
def countRefresh (es : List Effect) : Nat :=
  es.countP fun e => match e with | .jobListRefresh _ => true | _ => false

/-- Number of download-link requests in an effect trace. -/
def countDownload (es : List Effect) : Nat :=
  es.countP fun e => match e with | .downloadRequest _ => true | _ => false

/-- Number of session-clearing actions in an effect trace. -/
def countClear (es : List Effect) : Nat :=
  es.countP fun e => match e with | .clearSession => true | _ => false

/-- Keys of the download-link requests in an effect trace, in order. -/
def downloadKeys (es : List Effect) : List String :=
  es.filterMap fun e => match e with | .downloadRequest k => some k | _ => none

/-- Whether the trace renders any error message to the user (the failed-job
error text or a form error banner). -/
def hasErrorUI (es : List Effect) : Bool :=
  es.any fun e => match e with
    | .uiFailed _ => true
    | .showFormError _ => true
    | _ => false

/-- A chosen file as seen by the scripts: its name and its size in bytes. -/
structure FileInfo where
  name : String
  size : Nat
  deriving DecidableEq, Repr

/-- Values read from the video form at submit time (scripts.js,
handleVideoFormSubmit): querySelector for a checked radio returns null when
nothing is selected, and files' first element is undefined when no file was
chosen, both modelled as none. -/
structure FormValues where
  category : Option String
  audio    : Option String
  voice    : Option String
  file     : Option FileInfo
  deriving DecidableEq, Repr

/-- Size ceiling constant MAX_FILE_SIZE_BYTES = 5 * 1024 * 1024 (scripts.js). -/
def MAX_FILE_SIZE_BYTES : Nat := 5 * 1024 * 1024

/-- Validation messages collected before any upload attempt
(scripts.js, handleVideoFormSubmit). -/
def validationErrors (form : FormValues) : List String :=
  (if form.category.isNone then ["Please select a content category."] else []) ++
  (if form.audio.isNone then ["Please select background audio."] else []) ++
  (if form.voice.isNone then ["Please select a voice."] else []) ++
  (if form.file.isNone then ["Please upload a text file."] else [])

/-- The S3 object key built at scripts.js line 220: the template literal
userId/jobId/voice/category/audio/filename. -/
def s3Key (userId jobId voice category audio filename : String) : String :=
  userId ++ "/" ++ jobId ++ "/" ++ voice ++ "/" ++ category ++ "/" ++ audio ++ "/" ++ filename

/-- The userId used for the key: sessionStorage.getItem of userId with the
falsy fallback to the literal string unknown (absent key and empty string
are both falsy in JavaScript). -/
def sessionUserId (store : SessionStore) : String :=
  match store.userId with
  | some u => if u = "" then "unknown" else u
  | none => "unknown"

/-- Result of a submission attempt: the session store afterwards and the
effects emitted, in program order. -/
structure SubmitResult where
  store   : SessionStore
  effects : List Effect
  deriving DecidableEq, Repr

/-- Translation of handleVideoFormSubmit (scripts.js). The outcomes of the
two fallible awaits are passed in: credOk is whether getAWSCredentials
resolved, uploadOk whether s3.putObject resolved. Missing selections abort
with a combined error banner before any network traffic. On the happy path
the file is uploaded under the s3Key above, then currentJobId and
currentJobMeta are written and the page redirects; either failure is caught,
reported via the form error banner, and leaves the store untouched. -/
def handleVideoFormSubmit (form : FormValues) (store : SessionStore)
    (jobId : String) (credOk uploadOk : Bool) : SubmitResult :=
  match form.category, form.audio, form.voice, form.file with
  | some c, some a, some v, some fi =>
      let userId := sessionUserId store
      if credOk then
        let key := s3Key userId jobId v c a fi.name
        if uploadOk then
          ⟨{ store with currentJobId := some jobId, currentJobMeta := some ⟨v, c, a⟩ },
            [Effect.setButtonLoading, Effect.credRequest, Effect.s3Put key,
             Effect.redirect "jobs.html"]⟩
        else
          ⟨store,
            [Effect.setButtonLoading, Effect.credRequest, Effect.s3Put key,
             Effect.consoleError "Upload error", Effect.resetSubmitButton,
             Effect.showFormError "Upload failed"]⟩
      else
        ⟨store,
          [Effect.setButtonLoading, Effect.credRequest,
           Effect.consoleError "Upload error", Effect.resetSubmitButton,
           Effect.showFormError "Upload failed"]⟩
  | _, _, _, _ =>
      ⟨store, [Effect.showFormError (String.intercalate " " (validationErrors form))]⟩

/-- Outcome of the change handler on the file input. -/
inductive FileSelectionResult where
  | cleared
  | rejected (msg : String)
  | accepted (fileName : String)
  deriving DecidableEq, Repr

/-- Suffix test on strings as JavaScript's String.prototype.endsWith: the
character sequence of the suffix is a suffix of the character sequence of
the string. -/
def strEndsWith (s suffix : String) : Bool := List.isSuffixOf suffix.data s.data

/-- Translation of handleFileSelection (scripts.js): reject names not ending
in .txt, then reject sizes over MAX_FILE_SIZE_BYTES, otherwise accept;
every branch only touches the DOM. -/
def handleFileSelection (file : Option FileInfo) : FileSelectionResult × List Effect :=
  match file with
  | none => (.cleared, [Effect.displayFileName ""])
  | some fi =>
      if strEndsWith fi.name ".txt" then
        if fi.size > MAX_FILE_SIZE_BYTES then
          (.rejected "File exceeds the 5MB limit.",
            [Effect.setFieldError "file-error" "File exceeds the 5MB limit.",
             Effect.clearFileInput, Effect.displayFileName ""])
        else
          (.accepted fi.name,
            [Effect.setFieldError "file-error" "",
             Effect.displayFileName ("OK: " ++ fi.name)])
      else
        (.rejected "Please select a .txt file.",
          [Effect.setFieldError "file-error" "Please select a .txt file.",
           Effect.clearFileInput, Effect.displayFileName ""])

/-- Whether a file-selection outcome accepted the file. -/
def isAccepted : FileSelectionResult → Bool
  | .accepted _ => true
  | _ => false

/-- Whether an effect reaches the network (fetch, credential exchange or S3). -/
def isNetworkEffect : Effect → Bool
  | .fetchJob _ => true
  | .jobListRefresh _ => true
  | .downloadRequest _ => true
  | .credRequest => true
  | .s3Put _ => true
  | _ => false

/-- Sort key of loadAllJobs: new Date of createdAt with falsy fallback 0,
so a missing createdAt compares as timestamp 0, the earliest value. -/
def sortKey (j : Job) : Nat := j.createdAt.getD 0

/-- The descending order the comparator of loadAllJobs establishes:
a precedes b when the createdAt key of b is at most that of a. -/
def descOrder (a b : Job) : Prop := sortKey b ≤ sortKey a

instance : DecidableRel descOrder := fun a b => Nat.decLe (sortKey b) (sortKey a)

instance : IsTotal Job descOrder := ⟨fun a b => Nat.le_total (sortKey b) (sortKey a)⟩

instance : IsTrans Job descOrder := ⟨fun _ _ _ h h' => Nat.le_trans h' h⟩

/-- The sort performed by loadAllJobs: jobs.sort with the comparator
new Date of b.createdAt minus new Date of a.createdAt, i.e. a comparison
sort of the list into descOrder. -/
def sortJobs (jobs : List Job) : List Job := jobs.insertionSort descOrder

/-- Rendered state of the all-jobs section after loadAllJobs finishes. -/
inductive JobsView where
  | errorBanner
  | emptyState
  | rendered (cards : List Job)
  deriving DecidableEq, Repr

/-- Translation of loadAllJobs (error.js, jobs-page revision), parametrised
by the result of the GET /jobs fetch: none when the fetch failed or returned
non-ok, and some of the parsed array otherwise. An empty array shows the
empty-state placeholder; a failure shows the error banner; otherwise the
jobs are sorted newest first and rendered in that order. -/
def loadAllJobs (fetchResult : Option (List Job)) : JobsView :=
  match fetchResult with
  | none => .errorBanner
  | some [] => .emptyState
  | some (j :: tl) => .rendered (sortJobs (j :: tl))

/-! Helper lemmas about the poller. -/

/-- A cleared timer never ticks: with timerActive false the polling loop
processes nothing and emits nothing. -/
theorem runPolls_inactive (jobId : String) (rs : List FetchOutcome) (s : PState)
    (h : s.timerActive = false) : runPolls jobId rs s = (s, []) := by
  cases rs with
  | nil => rfl
  | cons r rs => simp [runPolls, h]

/-- The UI update for one job emits no job-list refresh, no session clearing,
and at most one download request. -/
theorem updateUI_counts (j : Job) :
    countRefresh (updateCurrentJobUI j) = 0 ∧
    countClear (updateCurrentJobUI j) = 0 ∧
    countDownload (updateCurrentJobUI j) ≤ 1 := by
  unfold updateCurrentJobUI countRefresh countClear countDownload
  split
  · rcases j.outputKey with _ | k
    · simp [List.countP_cons, List.countP_nil]
    · by_cases hk : k = "" <;> simp [hk, List.countP_cons, List.countP_nil]
  · split
    · simp [List.countP_cons, List.countP_nil]
    · simp [List.countP_nil]

/-- One poll cycle emits at most one job-list refresh, at most one download
request and at most one session clearing. -/
theorem pollOnce_counts (jobId : String) (r : FetchOutcome) (s : PState) :
    countRefresh (pollOnce jobId r s).effects ≤ 1 ∧
    countDownload (pollOnce jobId r s).effects ≤ 1 ∧
    countClear (pollOnce jobId r s).effects ≤ 1 := by
  have h1 : ∀ j, countRefresh (updateCurrentJobUI j) = 0 := fun j => (updateUI_counts j).1
  have h2 : ∀ j, countClear (updateCurrentJobUI j) = 0 := fun j => (updateUI_counts j).2.1
  have h3 : ∀ j, countDownload (updateCurrentJobUI j) ≤ 1 := fun j => (updateUI_counts j).2.2
  rcases r with _ | ⟨st, body⟩
  · simp [pollOnce, countRefresh, countDownload, countClear, List.countP_cons, List.countP_nil]
  · unfold pollOnce
    by_cases h404 : st = 404
    · simp [h404, countRefresh, countDownload, countClear, List.countP_cons, List.countP_nil]
    · by_cases hok : httpOk st
      · rcases body with _ | j
        · simp [h404, hok, countRefresh, countDownload, countClear,
            List.countP_cons, List.countP_nil]
        · by_cases hterm : j.status = "COMPLETE" ∨ j.status = "FAILED"
          · have e1 := h1 j; have e2 := h2 j; have e3 := h3 j
            unfold countRefresh countDownload countClear at *
            rcases hu : s.store.userId with _ | u
            · simp [h404, hok, hterm, hu, List.countP_cons, List.countP_append,
                List.countP_nil, e1, e2, e3]
            · by_cases hue : u = "" <;>
                simp [h404, hok, hterm, hu, hue, List.countP_cons, List.countP_append,
                  List.countP_nil, e1, e2, e3]
          · have e1 := h1 j; have e2 := h2 j; have e3 := h3 j
            unfold countRefresh countDownload countClear at *
            simp [h404, hok, hterm, List.countP_cons, e1, e2, e3]
      · simp [h404, hok, countRefresh, countDownload, countClear,
          List.countP_cons, List.countP_nil]

/-- A poll cycle that does not finish the poller emits no terminal side
effect at all: no refresh, no download request, no session clearing. -/
theorem pollOnce_not_finished (jobId : String) (r : FetchOutcome) (s : PState)
    (h : (pollOnce jobId r s).finished = false) :
    countRefresh (pollOnce jobId r s).effects = 0 ∧
    countDownload (pollOnce jobId r s).effects = 0 ∧
    countClear (pollOnce jobId r s).effects = 0 := by
  rcases r with _ | ⟨st, body⟩
  · simp [pollOnce, countRefresh, countDownload, countClear, List.countP_cons, List.countP_nil]
  · unfold pollOnce at h ⊢
    by_cases h404 : st = 404
    · simp [h404] at h
    · by_cases hok : httpOk st
      · rcases body with _ | j
        · simp [h404, hok, countRefresh, countDownload, countClear,
            List.countP_cons, List.countP_nil]
        · by_cases hterm : j.status = "COMPLETE" ∨ j.status = "FAILED"
          · simp [h404, hok, hterm] at h
          · have hC : ¬ j.status = "COMPLETE" := fun hc => hterm (Or.inl hc)
            have hF : ¬ j.status = "FAILED" := fun hf => hterm (Or.inr hf)
            simp [h404, hok, hterm, countRefresh, countDownload, countClear,
              List.countP_cons, updateCurrentJobUI, hC, hF, List.countP_nil]
      · simp [h404, hok, countRefresh, countDownload, countClear,
          List.countP_cons, List.countP_nil]

/-- Any polling run, over any sequence of fetch outcomes, emits at most one
job-list refresh, at most one download request and at most one session
clearing. -/
theorem runPolls_counts (jobId : String) (rs : List FetchOutcome) (s : PState) :
    countRefresh (runPolls jobId rs s).2 ≤ 1 ∧
    countDownload (runPolls jobId rs s).2 ≤ 1 ∧
    countClear (runPolls jobId rs s).2 ≤ 1 := by
  induction rs generalizing s with
  | nil => simp [runPolls, countRefresh, countDownload, countClear, List.countP_nil]
  | cons r rs ih =>
    by_cases hA : s.timerActive
    · cases hf : (pollOnce jobId r s).finished with
      | false =>
        have hz := pollOnce_not_finished jobId r s hf
        have hrec := ih (pollOnce jobId r s).state
        simp only [runPolls, hA, if_true, hf, Bool.false_eq_true, if_false]
        unfold countRefresh countDownload countClear at *
        simp [List.countP_append, hz.1, hz.2.1, hz.2.2, hrec.1, hrec.2.1, hrec.2.2]
      | true =>
        have hb := pollOnce_counts jobId r s
        simp only [runPolls, hA, if_true, hf]
        rw [runPolls_inactive jobId rs _ rfl]
        simpa using hb
    · simp only [Bool.not_eq_true] at hA
      rw [runPolls_inactive jobId (r :: rs) s hA]
      simp [countRefresh, countDownload, countClear, List.countP_nil]

/-- C1: For every jobId being polled, exactly one terminal transition occurs:
once a poll observes COMPLETE, FAILED, or a not-found (404) response, the
polling timer is cancelled and no subsequent timer tick for that jobId
produces a second terminal side effect — the whole run contains at most one
job-list refresh, at most one download-link request and at most one clearing
of session state. -/
theorem poller_terminal_idempotent (jobId : String) (rs : List FetchOutcome) (s : PState) :
    countRefresh (runPolls jobId rs s).2 ≤ 1 ∧
    countDownload (runPolls jobId rs s).2 ≤ 1 ∧
    countClear (runPolls jobId rs s).2 ≤ 1 :=
  runPolls_counts jobId rs s

/-- C2: A poll cycle whose HTTP response is 404 clears the persisted
current-job reference (currentJobId and currentJobMeta both removed), hides
the in-progress section, returns true so the timer stops, and shows no error
message — from any prior polling state whatsoever. -/
theorem poll_notfound_silent_reset (jobId : String) (body : Option Job) (s : PState) :
    (pollOnce jobId (.response 404 body) s).state.store.currentJobId = none ∧
    (pollOnce jobId (.response 404 body) s).state.store.currentJobMeta = none ∧
    (pollOnce jobId (.response 404 body) s).state.sectionVisible = false ∧
    (pollOnce jobId (.response 404 body) s).finished = true ∧
    hasErrorUI (pollOnce jobId (.response 404 body) s).effects = false := by
  simp [pollOnce, hasErrorUI]

/-- C3 counterexample: a poll cycle that observes status COMPLETE does not
remove currentJobId from the session store — after the cycle the store still
holds the job id. -/
theorem pollOnce_complete_retains_currentJobId :
    (pollOnce "j1" (FetchOutcome.response 200 (some { status := "COMPLETE" }))
      { store := { currentJobId := some "j1", currentJobMeta := none, userId := some "u1" },
        sectionVisible := true, timerActive := true }).state.store.currentJobId
      = some "j1" := by
  rfl

/-- C3 amended: only the not-found path clears the persisted current-job
reference: a 404 poll cycle removes currentJobId, while a poll cycle that
receives an ok response — in particular one observing COMPLETE or FAILED —
leaves the session store entirely unchanged. -/
theorem poll_clear_only_on_notfound (jobId : String) (s : PState) (body : Option Job)
    (st : Nat) (j : Job) (hok : httpOk st = true) :
    (pollOnce jobId (.response 404 body) s).state.store.currentJobId = none ∧
    (pollOnce jobId (.response st (some j)) s).state.store = s.store := by
  have h404 : ¬ st = 404 := by
    intro h; subst h; simp [httpOk] at hok
  constructor
  · simp [pollOnce]
  · unfold pollOnce
    simp only [h404, if_false, hok, if_true]
    split <;> rfl

/-- C3 amended witness at concrete inputs. -/
theorem poll_clear_only_on_notfound_witness :
    httpOk 200 = true ∧
    ((pollOnce "j1" (.response 404 none)
        { store := { currentJobId := some "j1", currentJobMeta := none, userId := none },
          sectionVisible := true, timerActive := true }).state.store.currentJobId = none ∧
      (pollOnce "j1" (.response 200 (some { status := "FAILED" }))
        { store := { currentJobId := some "j1", currentJobMeta := none, userId := none },
          sectionVisible := true, timerActive := true }).state.store =
        { currentJobId := some "j1", currentJobMeta := none, userId := none }) :=
  ⟨by decide,
    poll_clear_only_on_notfound "j1"
      { store := { currentJobId := some "j1", currentJobMeta := none, userId := none },
        sectionVisible := true, timerActive := true }
      none 200 { status := "FAILED" } (by decide)⟩

/-- C4: A poll cycle that fails at the network layer, returns a malformed
body, or returns a non-2xx status other than 404 is logged and is a no-op:
the page state (including the persisted current-job reference) is unchanged,
the cycle does not finish the poller, the polling loop simply continues with
the remaining ticks, and the interval is the fixed 4000 ms for every tick —
no backoff, no retry cap. -/
theorem poll_failure_noop (jobId : String) (r : FetchOutcome) (s : PState)
    (rs : List FetchOutcome) (h : isPollFailure r = true) :
    (pollOnce jobId r s).state = s ∧
    (pollOnce jobId r s).finished = false ∧
    (pollOnce jobId r s).effects = [Effect.fetchJob jobId, Effect.consoleError "Poll error"] ∧
    (s.timerActive = true →
      runPolls jobId (r :: rs) s =
        ((runPolls jobId rs s).1, (pollOnce jobId r s).effects ++ (runPolls jobId rs s).2)) ∧
    POLL_INTERVAL_MS = 4000 ∧ (∀ n, pollDelay n = 4000) := by
  have hstep : (pollOnce jobId r s).state = s ∧
      (pollOnce jobId r s).finished = false ∧
      (pollOnce jobId r s).effects =
        [Effect.fetchJob jobId, Effect.consoleError "Poll error"] := by
    rcases r with _ | ⟨st, body⟩
    · simp [pollOnce]
    · unfold isPollFailure at h
      by_cases h404 : st = 404
      · simp [h404] at h
      · by_cases hok : httpOk st
        · rcases body with _ | j
          · simp [pollOnce, h404, hok]
          · simp [h404, hok] at h
        · simp [pollOnce, h404, hok]
  refine ⟨hstep.1, hstep.2.1, hstep.2.2, ?_, rfl, fun _ => rfl⟩
  intro hA
  simp only [runPolls, hA, if_true, hstep.1, hstep.2.1, Bool.false_eq_true, if_false]

/-- C4 witness: a 500 response is a poll failure and the loop continues. -/
theorem poll_failure_noop_witness :
    isPollFailure (.response 500 none) = true ∧
    (pollOnce "j1" (.response 500 none)
      { store := { currentJobId := some "j1", currentJobMeta := none, userId := none },
        sectionVisible := true, timerActive := true }).finished = false :=
  ⟨by decide,
    (poll_failure_noop "j1" (.response 500 none)
      { store := { currentJobId := some "j1", currentJobMeta := none, userId := none },
        sectionVisible := true, timerActive := true } [] (by decide)).2.1⟩

/-- C5: On an ok response with status COMPLETE, the cycle requests a
pre-signed download link for exactly the present outputKey and for nothing
else; when outputKey is absent (or the empty, falsy string) no download
request is made. Over any whole polling run at most one download request
ever occurs. -/
theorem poll_complete_single_download (jobId : String) (rs : List FetchOutcome)
    (s : PState) (st : Nat) (j : Job) (hok : httpOk st = true)
    (hs : j.status = "COMPLETE") :
    downloadKeys (pollOnce jobId (.response st (some j)) s).effects =
      (match j.outputKey with
       | some k => if k = "" then [] else [k]
       | none => []) ∧
    countDownload (runPolls jobId rs s).2 ≤ 1 := by
  refine ⟨?_, (runPolls_counts jobId rs s).2.1⟩
  have h404 : ¬ st = 404 := by
    intro h; subst h; simp [httpOk] at hok
  unfold pollOnce
  simp only [h404, if_false, hok, if_true, hs, ite_true, or_true, true_or, if_pos (Or.inl rfl)]
  unfold downloadKeys updateCurrentJobUI
  simp only [hs, if_true, ite_true]
  rcases j.outputKey with _ | k
  · rcases s.store.userId with _ | u
    · simp [List.filterMap_cons]
    · by_cases hu : u = "" <;> simp [hu, List.filterMap_cons, List.filterMap_append]
  · by_cases hk : k = "" <;>
      · rcases s.store.userId with _ | u
        · simp [hk, List.filterMap_cons, List.filterMap_append]
        · by_cases hu : u = "" <;>
            simp [hk, hu, List.filterMap_cons, List.filterMap_append]

/-- C5 witness at a concrete COMPLETE response carrying outputKey k1. -/
theorem poll_complete_single_download_witness :
    httpOk 200 = true ∧
    downloadKeys (pollOnce "j1" (.response 200 (some { status := "COMPLETE", outputKey := some "k1" }))
      { store := { currentJobId := some "j1", currentJobMeta := none, userId := none },
        sectionVisible := true, timerActive := true }).effects = ["k1"] :=
  ⟨by decide, by
    have h := poll_complete_single_download "j1" []
      { store := { currentJobId := some "j1", currentJobMeta := none, userId := none },
        sectionVisible := true, timerActive := true }
      200 { status := "COMPLETE", outputKey := some "k1" } (by decide) rfl
    simpa using h.1⟩

/-- Keys of the S3 uploads in an effect trace, in order. -/
def uploadKeys (es : List Effect) : List String :=
  es.filterMap fun e => match e with | .s3Put k => some k | _ => none

/-- C6: For every validated submission with a stored userId u, jobId j,
voice v, category c, audio a and file name f, the object-storage key of the
upload is exactly the concatenation u/j/v/c/a/f in that fixed order; in
particular u1, j1, v1, c1, a1, f.txt yields u1/j1/v1/c1/a1/f.txt. -/
theorem submit_key_format (u j v c a f : String) (store : SessionStore)
    (size : Nat) (uploadOk : Bool) (hu : store.userId = some u) (hne : u ≠ "") :
    uploadKeys (handleVideoFormSubmit
        { category := some c, audio := some a, voice := some v,
          file := some { name := f, size := size } } store j true uploadOk).effects
      = [u ++ "/" ++ j ++ "/" ++ v ++ "/" ++ c ++ "/" ++ a ++ "/" ++ f] ∧
    s3Key "u1" "j1" "v1" "c1" "a1" "f.txt" = "u1/j1/v1/c1/a1/f.txt" := by
  constructor
  · unfold handleVideoFormSubmit sessionUserId s3Key uploadKeys
    simp only [hu, hne, if_false, ite_true, if_true]
    cases uploadOk <;> simp [List.filterMap_cons]
  · rfl

/-- C6 witness at the concrete inputs of the spec example. -/
theorem submit_key_format_witness :
    ({ currentJobId := none, currentJobMeta := none,
       userId := some "u1" } : SessionStore).userId = some "u1" ∧
    ("u1" : String) ≠ "" ∧
    uploadKeys (handleVideoFormSubmit
        { category := some "c1", audio := some "a1", voice := some "v1",
          file := some { name := "f.txt", size := 1024 } }
        { currentJobId := none, currentJobMeta := none, userId := some "u1" }
        "j1" true true).effects = ["u1/j1/v1/c1/a1/f.txt"] :=
  ⟨rfl, by decide, by
    have h := submit_key_format "u1" "j1" "v1" "c1" "a1" "f.txt"
      { currentJobId := none, currentJobMeta := none, userId := some "u1" }
      1024 true rfl (by decide)
    rw [h.1]; rfl⟩

/-- C7: File validation is synchronous and network-free: the handler never
emits a network effect, a file is accepted exactly when its name ends in
.txt and its size is at most MAX_FILE_SIZE_BYTES, and in particular a 6 MiB
.txt file and notes.pdf are rejected while a 1 KiB notes.txt is accepted. -/
theorem file_validation_sync (fi : FileInfo) :
    (∀ f : Option FileInfo,
        (handleFileSelection f).2.countP (fun e => isNetworkEffect e) = 0) ∧
    isAccepted (handleFileSelection (some fi)).1
      = (strEndsWith fi.name ".txt" && decide (fi.size ≤ MAX_FILE_SIZE_BYTES)) ∧
    isAccepted (handleFileSelection
      (some { name := "big.txt", size := 6 * 1024 * 1024 })).1 = false ∧
    isAccepted (handleFileSelection (some { name := "notes.pdf", size := 1024 })).1 = false ∧
    isAccepted (handleFileSelection (some { name := "notes.txt", size := 1024 })).1 = true := by
  refine ⟨?_, ?_, by decide, by decide, by decide⟩
  · intro f
    rcases f with _ | fi'
    · simp [handleFileSelection, isNetworkEffect]
    · unfold handleFileSelection
      by_cases hext : strEndsWith fi'.name ".txt"
      · by_cases hsz : fi'.size > MAX_FILE_SIZE_BYTES <;>
          simp [hext, hsz, isNetworkEffect, List.countP_cons, List.countP_nil]
      · simp [hext, isNetworkEffect, List.countP_cons, List.countP_nil]
  · unfold handleFileSelection
    by_cases hext : strEndsWith fi.name ".txt"
    · by_cases hsz : fi.size > MAX_FILE_SIZE_BYTES
      · have : ¬ fi.size ≤ MAX_FILE_SIZE_BYTES := Nat.not_le.mpr hsz
        simp [hext, hsz, isAccepted, this]
      · have : fi.size ≤ MAX_FILE_SIZE_BYTES := Nat.not_lt.mp hsz
        simp [hext, hsz, isAccepted, this]
    · simp [hext, isAccepted]

/-- C8: Every submission attempt that fails after validation — credential
refresh failure or upload failure — reports an error, resets the submit
button for retry, does not navigate away, and persists nothing: the session
store is returned unchanged; currentJobId and currentJobMeta are written
exactly on the path where both the credential exchange and the upload
succeed. -/
theorem submit_failure_no_partial_state (c a v : String) (fi : FileInfo)
    (store : SessionStore) (j : String) (credOk uploadOk : Bool) :
    ((credOk = false ∨ uploadOk = false) →
      (handleVideoFormSubmit
          { category := some c, audio := some a, voice := some v, file := some fi }
          store j credOk uploadOk).store = store ∧
      hasErrorUI (handleVideoFormSubmit
          { category := some c, audio := some a, voice := some v, file := some fi }
          store j credOk uploadOk).effects = true ∧
      Effect.resetSubmitButton ∈ (handleVideoFormSubmit
          { category := some c, audio := some a, voice := some v, file := some fi }
          store j credOk uploadOk).effects ∧
      (∀ p, Effect.redirect p ∉ (handleVideoFormSubmit
          { category := some c, audio := some a, voice := some v, file := some fi }
          store j credOk uploadOk).effects)) ∧
    (credOk = true → uploadOk = true →
      (handleVideoFormSubmit
          { category := some c, audio := some a, voice := some v, file := some fi }
          store j credOk uploadOk).store =
        { store with currentJobId := some j,
                     currentJobMeta := some { voice := v, category := c, audio := a } }) := by
  constructor
  · intro hfail
    rcases hfail with hc | hup
    · subst hc
      simp [handleVideoFormSubmit, hasErrorUI]
    · subst hup
      cases credOk <;> simp [handleVideoFormSubmit, hasErrorUI]
  · intro hc hup
    subst hc; subst hup
    simp [handleVideoFormSubmit]

/-- C8 witness: a failing upload leaves the store untouched. -/
theorem submit_failure_no_partial_state_witness :
    (handleVideoFormSubmit
      { category := some "c1", audio := some "a1", voice := some "v1",
        file := some { name := "f.txt", size := 1 } }
      { currentJobId := none, currentJobMeta := none, userId := some "u1" }
      "j1" true false).store =
      { currentJobId := none, currentJobMeta := none, userId := some "u1" } :=
  ((submit_failure_no_partial_state "c1" "a1" "v1" { name := "f.txt", size := 1 }
      { currentJobId := none, currentJobMeta := none, userId := some "u1" }
      "j1" true false).1 (Or.inr rfl)).1

/-- C10: When the session store holds no userId at submission time, the
upload still proceeds (the PUT is issued) and the first segment of the
object key is the literal string unknown rather than an identity-derived
user id. -/
theorem submit_missing_userId (c a v : String) (fi : FileInfo) (store : SessionStore)
    (j : String) (uploadOk : Bool) (h : store.userId = none) :
    uploadKeys (handleVideoFormSubmit
        { category := some c, audio := some a, voice := some v, file := some fi }
        store j true uploadOk).effects
      = ["unknown" ++ "/" ++ j ++ "/" ++ v ++ "/" ++ c ++ "/" ++ a ++ "/" ++ fi.name] := by
  unfold handleVideoFormSubmit sessionUserId s3Key uploadKeys
  simp only [h, ite_true, if_true]
  cases uploadOk <;> simp [List.filterMap_cons]

/-- C10 witness: a concrete submission with no stored userId uploads under
a key whose first segment is unknown. -/
theorem submit_missing_userId_witness :
    ({ currentJobId := none, currentJobMeta := none,
       userId := none } : SessionStore).userId = none ∧
    uploadKeys (handleVideoFormSubmit
        { category := some "c1", audio := some "a1", voice := some "v1",
          file := some { name := "f.txt", size := 1 } }
        { currentJobId := none, currentJobMeta := none, userId := none }
        "j1" true true).effects = ["unknown/j1/v1/c1/a1/f.txt"] :=
  ⟨rfl, by
    have h := submit_missing_userId "c1" "a1" "v1" { name := "f.txt", size := 1 }
      { currentJobId := none, currentJobMeta := none, userId := none } "j1" true rfl
    rw [h]; rfl⟩

/-- C9: The rendered job list is the fetched list sorted by createdAt
descending: the sorted list is a permutation of the input, is sorted in
descOrder, a missing createdAt has sort key 0 and so sorts as earliest
(every job descOrder-precedes it), the rendered view displays exactly
sortJobs of the fetched jobs, and a fetched order T2, T1, T3 with
T1 < T2 < T3 renders as T3, T2, T1. -/
theorem jobs_sorted_desc (js : List Job) (j0 : Job) (tl : List Job)
    (t1 t2 t3 : Nat) (h12 : t1 < t2) (h23 : t2 < t3) :
    (sortJobs js).Perm js ∧
    (sortJobs js).Sorted descOrder ∧
    (∀ x jm : Job, jm.createdAt = none → descOrder x jm) ∧
    loadAllJobs (some (j0 :: tl)) = JobsView.rendered (sortJobs (j0 :: tl)) ∧
    sortJobs [{ status := "PENDING", createdAt := some t2 },
              { status := "PENDING", createdAt := some t1 },
              { status := "PENDING", createdAt := some t3 }]
      = [{ status := "PENDING", createdAt := some t3 },
         { status := "PENDING", createdAt := some t2 },
         { status := "PENDING", createdAt := some t1 }] := by
  refine ⟨List.perm_insertionSort descOrder js, List.sorted_insertionSort descOrder js,
    ?_, rfl, ?_⟩
  · intro x jm hm
    unfold descOrder sortKey
    rw [hm]
    exact Nat.zero_le _
  · have e13 : ¬ descOrder { status := "PENDING", createdAt := some t1 }
        { status := "PENDING", createdAt := some t3 } := by
      unfold descOrder sortKey
      simp
      omega
    have e23 : ¬ descOrder { status := "PENDING", createdAt := some t2 }
        { status := "PENDING", createdAt := some t3 } := by
      unfold descOrder sortKey
      simp
      omega
    have e21 : descOrder { status := "PENDING", createdAt := some t2 }
        { status := "PENDING", createdAt := some t1 } := by
      unfold descOrder sortKey
      simp
      omega
    simp [sortJobs, List.insertionSort, List.orderedInsert, e13, e23, e21]

/-- C9 witness at concrete timestamps 1 < 2 < 3. -/
theorem jobs_sorted_desc_witness :
    (1 : Nat) < 2 ∧ (2 : Nat) < 3 ∧
    sortJobs [{ status := "PENDING", createdAt := some 2 },
              { status := "PENDING", createdAt := some 1 },
              { status := "PENDING", createdAt := some 3 }]
      = [{ status := "PENDING", createdAt := some 3 },
         { status := "PENDING", createdAt := some 2 },
         { status := "PENDING", createdAt := some 1 }] :=
  ⟨by decide, by decide,
    (jobs_sorted_desc [] { status := "PENDING" } [] 1 2 3 (by decide) (by decide)).2.2.2.2⟩

end VoiceCraft
